import Mathlib

/-!
# Shallow embedding of `src/src/components/GeolocationWizard.tsx`

The wizard component is a three-step form over a map.  Its state (the React
`useState` hooks of `GeolocationWizard`) is modelled as a record
`WizardState`; every event handler of the component becomes a pure function
from the old state (plus the event's data and, for handlers that call the
network, the outcome of the fetch) to the new state.  JavaScript numbers are
modelled as `ℚ`; the two external inputs (the reverse-geocoding HTTP
response and the text typed by the user) are explicit arguments.
-/

/-- One decimal digit's numeric value. -/
def digitVal (c : Char) : Nat := c.toNat - 48

/-- Value of a run of decimal digits, most significant first. -/
def digitsVal (cs : List Char) : Nat :=
  cs.foldl (fun a c => a * 10 + digitVal c) 0

/-- Read a maximal run of decimal digits: value, number of digits read,
and the remaining characters. -/
def readDigits (cs : List Char) : Nat × Nat × List Char :=
  let ds := cs.takeWhile Char.isDigit
  (digitsVal ds, ds.length, cs.dropWhile Char.isDigit)

/-- JavaScript's `s.split(',')`, on the character list of `s`. -/
def splitOnComma : List Char → List (List Char)
  | [] => [[]]
  | c :: rest =>
    let r := splitOnComma rest
    if c = ',' then [] :: r
    else
      match r with
      | [] => [[c]]
      | h :: t => (c :: h) :: t

/-- JavaScript's `Number(s)`, restricted to the strings the wizard ever
feeds it: the halves of the coordinate search pattern
`-?\d+\.?\d*` (an optional minus sign, digits, an optional dot, digits). -/
def jsNumber (s : String) : ℚ :=
  let parseUnsigned : List Char → ℚ := fun cs =>
    let (i, _, rest) := readDigits cs
    match rest with
    | '.' :: fracCs =>
      let (f, nf, _) := readDigits fracCs
      (i : ℚ) + (f : ℚ) / (10 : ℚ) ^ nf
    | _ => (i : ℚ)
  match s.data with
  | '-' :: cs => - parseUnsigned cs
  | cs => parseUnsigned cs

/-- JavaScript's `parseFloat(s)` on decimal inputs: skip leading
whitespace, an optional sign, a mantissa that must contain at least one
digit, and an optional exponent part; `none` models `NaN` (no parsable
number at the front).  `Infinity` inputs, which the coordinate fields
would reject as out of range anyway, are also mapped to `none`. -/
def jsParseFloat (s : String) : Option ℚ :=
  let cs := s.data.dropWhile (fun c => c = ' ' || c = '\t' || c = '\n' || c = '\r')
  let (neg, cs) : Bool × List Char :=
    match cs with
    | '-' :: rest => (true, rest)
    | '+' :: rest => (false, rest)
    | rest => (false, rest)
  let (i, ni, cs) := readDigits cs
  let (mant, nDigits, cs) : ℚ × Nat × List Char :=
    match cs with
    | '.' :: fracCs =>
      let (f, nf, rest) := readDigits fracCs
      ((i : ℚ) + (f : ℚ) / (10 : ℚ) ^ nf, ni + nf, rest)
    | rest => ((i : ℚ), ni, rest)
  if nDigits = 0 then none
  else
    let scaled : ℚ :=
      match cs with
      | 'e' :: rest | 'E' :: rest =>
        let (esign, ds) : Bool × List Char :=
          match rest with
          | '-' :: ds => (true, ds)
          | '+' :: ds => (false, ds)
          | ds => (false, ds)
        let (e, ne, _) := readDigits ds
        if ne = 0 then mant
        else if esign then mant / (10 : ℚ) ^ e else mant * (10 : ℚ) ^ e
      | _ => mant
    some (if neg then -scaled else scaled)

/-- JavaScript's `x.toFixed(6)` on an exact rational value: the decimal
expansion of `|x|` rounded to six fractional digits (ties away from zero),
with a leading minus sign for negative `x`. -/
def toFixed6 (q : ℚ) : String :=
  let n := (q.num.natAbs * 1000000 * 2 + q.den) / (2 * q.den)
  let intStr := toString (n / 1000000)
  let fracRaw := toString (n % 1000000)
  let frac := String.mk (List.replicate (6 - fracRaw.length) '0') ++ fracRaw
  (if q < 0 then "-" else "") ++ intStr ++ "." ++ frac

/-- The string `` `${lat.toFixed(6)}, ${lng.toFixed(6)}` `` that the wizard
uses as the textual fallback for a coordinate pair. -/
def coordFallback (lat lng : ℚ) : String :=
  toFixed6 lat ++ ", " ++ toFixed6 lng

/-- Outcome of the `fetch` of the Nominatim reverse-geocoding endpoint, as
`reverseGeocode` observes it: either the request (or reading its JSON body)
threw, or a response arrived with its `ok` flag and the optional
`display_name` field of the decoded body. -/
inductive FetchOutcome where
  | fetchError : FetchOutcome
  | response (ok : Bool) (displayName : Option String) : FetchOutcome
deriving DecidableEq

/-- The source's `reverseGeocode(lat, lng)`: on an `ok` response, return
`data.display_name || fallback` (the JavaScript `||` takes the fallback
when the field is absent or the empty string); on a non-`ok` response or a
thrown error, return the coordinate fallback string.  The `try`/`catch`
inside the source makes the function total: it never rethrows. -/
def reverseGeocode (lat lng : ℚ) (out : FetchOutcome) : String :=
  match out with
  | .response true (some dn) => if dn = "" then coordFallback lat lng else dn
  | .response true none => coordFallback lat lng
  | .response false _ => coordFallback lat lng
  | .fetchError => coordFallback lat lng

/-- One half of the coordinate search pattern: `-?\d+\.?\d*`. -/
def matchCoordHalf (cs : List Char) : Bool :=
  let cs' := match cs with
    | '-' :: rest => rest
    | rest => rest
  let ds := cs'.takeWhile Char.isDigit
  let rest := cs'.dropWhile Char.isDigit
  !ds.isEmpty &&
    (rest.isEmpty ||
      match rest with
      | '.' :: t => t.all Char.isDigit
      | _ => false)

/-- The test `coordPattern.test(searchTerm)` for the regular expression
`^-?\d+\.?\d*,-?\d+\.?\d*$`: since neither half may contain a comma, the
string matches exactly when splitting it at commas yields two pieces, each
matching `-?\d+\.?\d*`. -/
def coordPatternTest (s : String) : Bool :=
  match splitOnComma s.data with
  | [a, b] => matchCoordHalf a && matchCoordHalf b
  | _ => false

/-- The source's `geocodeLocation(searchTerm)`: a coordinate-shaped term is split at the
comma and both halves go through `Number`; any other term returns the mock
New York City location `{lat: 40.7128, lng: -74.0060}`. -/
def geocodeLocation (s : String) : ℚ × ℚ :=
  if coordPatternTest s then
    let parts := splitOnComma s.data
    (jsNumber (String.mk (parts.headD [])),
     jsNumber (String.mk ((parts.drop 1).headD [])))
  else
    (40.7128, -74.0060)

/-- The `projectExtent` state: a circle `{center, radius}`; `center` is
`null` until an extent is placed. -/
structure ProjectExtent where
  center : Option (ℚ × ℚ)
  radius : ℚ
deriving DecidableEq

/-- The `WizardResult` record emitted through `onComplete`. -/
structure WizardResult where
  projectLocation : Option (ℚ × ℚ)
  projectExtent : ProjectExtent
  buildingLocation : Option (ℚ × ℚ)
  buildingRotation : ℚ
  interactionMode : String
deriving DecidableEq

/-- The `useState` hooks of `GeolocationWizard`, gathered into one record.
`interactionMode` is the string `"drag"` or `"center"`. -/
structure WizardState where
  currentStep : Nat
  interactionMode : String
  mapCenter : ℚ × ℚ
  mapZoom : Nat
  projectLocation : Option (ℚ × ℚ)
  projectExtent : ProjectExtent
  buildingLocation : Option (ℚ × ℚ)
  buildingRotation : ℚ
  searchAddress : String
deriving DecidableEq

/-- The initial values of the hooks: step 0, drag mode, map on the center
of the US at zoom 4, no locations, extent `{center: null, radius: 1000}`,
rotation 0, empty search text. -/
def initialState : WizardState where
  currentStep := 0
  interactionMode := "drag"
  mapCenter := (39.8283, -98.5795)
  mapZoom := 4
  projectLocation := none
  projectExtent := { center := none, radius := 1000 }
  buildingLocation := none
  buildingRotation := 0
  searchAddress := ""

/-- The length of `steps` (the wizard has three steps). -/
def stepsLength : Nat := 3

/-- The source's `handleSearch(searchTerm)`: geocode the term, recenter the map at zoom
15; at step 0 additionally store the location as the project location and
set the search-box text — to the term itself when it was a coordinate
pair, and otherwise to the reverse-geocoded address of the mock location
(`reverseGeocode` is total, so the surrounding `try`/`catch` never
fires). -/
def handleSearch (searchTerm : String) (out : FetchOutcome) (s : WizardState) :
    WizardState :=
  let loc := geocodeLocation searchTerm
  let s1 := { s with mapCenter := loc, mapZoom := 15 }
  if s.currentStep = 0 then
    let s2 := { s1 with projectLocation := some loc }
    if coordPatternTest searchTerm then
      { s2 with searchAddress := searchTerm }
    else
      { s2 with searchAddress := reverseGeocode loc.1 loc.2 out }
  else
    s1

/-- The source's `handleMapClick(latlng)`: at step 0 place the project location (and,
in center mode, recenter the map) and refresh the search text from reverse
geocoding; at step 1 place the extent center with radius 1000; at step 2
place the building. -/
def handleMapClick (latlng : ℚ × ℚ) (out : FetchOutcome) (s : WizardState) :
    WizardState :=
  if s.currentStep = 0 then
    let s1 := { s with
      projectLocation := some latlng,
      mapCenter := if s.interactionMode = "center" then latlng else s.mapCenter }
    { s1 with searchAddress := reverseGeocode latlng.1 latlng.2 out }
  else if s.currentStep = 1 then
    { s with
      projectExtent := { center := some latlng, radius := 1000 },
      mapCenter := if s.interactionMode = "center" then latlng else s.mapCenter }
  else if s.currentStep = 2 then
    { s with
      buildingLocation := some latlng,
      mapCenter := if s.interactionMode = "center" then latlng else s.mapCenter }
  else
    s

/-- The marker kinds `'project' | 'extent' | 'building'` of
`handleMarkerDrag`. -/
inductive MarkerType where
  | project : MarkerType
  | extent : MarkerType
  | building : MarkerType
deriving DecidableEq

/-- The source's `handleMarkerDrag(latlng, type)`: move the dragged marker's stored
position; a project-marker drag at step 0 also refreshes the search text
from reverse geocoding. -/
def handleMarkerDrag (latlng : ℚ × ℚ) (ty : MarkerType) (out : FetchOutcome)
    (s : WizardState) : WizardState :=
  match ty with
  | .project =>
    let s1 := { s with projectLocation := some latlng }
    if s.currentStep = 0 then
      { s1 with searchAddress := reverseGeocode latlng.1 latlng.2 out }
    else
      s1
  | .extent =>
    { s with projectExtent := { s.projectExtent with center := some latlng } }
  | .building =>
    { s with buildingLocation := some latlng }

/-- The source's `handleCoordinateChange(lat, lng)` (the tooltip's `onPositionChange`):
move the project location and the map center, and refresh the search text
from reverse geocoding. -/
def handleCoordinateChange (lat lng : ℚ) (out : FetchOutcome) (s : WizardState) :
    WizardState :=
  { s with
    projectLocation := some (lat, lng),
    mapCenter := (lat, lng),
    searchAddress := reverseGeocode lat lng out }

/-- The source's `canProceed()`: step 0 needs a project location, step 1 an extent
center; step 2 is optional. -/
def canProceed (s : WizardState) : Bool :=
  if s.currentStep = 0 then s.projectLocation.isSome
  else if s.currentStep = 1 then s.projectExtent.center.isSome
  else true

/-- The source's `handleNext()`: below the last step, advance one step — and when
leaving step 0 with a project location set, recenter the map on it at zoom
14 and seed the extent with that center and radius 1000; at the last step,
leave the state alone and emit the `WizardResult` through `onComplete`. -/
def handleNext (s : WizardState) : WizardState × Option WizardResult :=
  if s.currentStep < stepsLength - 1 then
    let s1 := { s with currentStep := s.currentStep + 1 }
    match s.projectLocation with
    | some loc =>
      if s.currentStep = 0 then
        ({ s1 with
            mapCenter := loc,
            mapZoom := 14,
            projectExtent := { center := some loc, radius := 1000 } }, none)
      else
        (s1, none)
    | none => (s1, none)
  else
    (s, some
      { projectLocation := s.projectLocation
        projectExtent := s.projectExtent
        buildingLocation := s.buildingLocation
        buildingRotation := s.buildingRotation
        interactionMode := s.interactionMode })

/-- The source's `handlePrevious()`: step back one step when above step 0. -/
def handlePrevious (s : WizardState) : WizardState :=
  if 0 < s.currentStep then { s with currentStep := s.currentStep - 1 } else s

/-- The `disabled` condition of the Previous button. -/
def previousDisabled (s : WizardState) : Bool :=
  s.currentStep = 0

/-- The setter `setBuildingRotation(r)` (the `onRotationChange` callback). -/
def setBuildingRotation (r : ℚ) (s : WizardState) : WizardState :=
  { s with buildingRotation := r }

/-- The rotation the stepper's right button requests: `rotation + 15`. -/
def rotationStepUp (r : ℚ) : ℚ := r + 15

/-- The rotation the stepper's left button requests: `rotation - 15`. -/
def rotationStepDown (r : ℚ) : ℚ := r - 15

/-- The setter `setInteractionMode(mode)` (the `onModeChange` callback). -/
def setInteractionMode (m : String) (s : WizardState) : WizardState :=
  { s with interactionMode := m }

/-- The tooltip's `handleLatChange`, acting on the marker
position it controls: parse the typed text; when it is a number within
`[-90, 90]`, call `onPositionChange(numValue, position[1])`; otherwise
leave the position alone (only the local input text changes). -/
def handleLatChange (value : String) (position : ℚ × ℚ) : ℚ × ℚ :=
  match jsParseFloat value with
  | some numValue =>
    if -90 ≤ numValue ∧ numValue ≤ 90 then (numValue, position.2) else position
  | none => position

/-- The tooltip's `handleLngChange`: as `handleLatChange`, with
the range `[-180, 180]` and `onPositionChange(position[0], numValue)`. -/
def handleLngChange (value : String) (position : ℚ × ℚ) : ℚ × ℚ :=
  match jsParseFloat value with
  | some numValue =>
    if -180 ≤ numValue ∧ numValue ≤ 180 then (position.1, numValue) else position
  | none => position

/-- The states the wizard can reach: the initial hook values, closed under
every event handler of the component. -/
inductive Reachable : WizardState → Prop where
  | init : Reachable initialState
  | search (t : String) (out : FetchOutcome) {s : WizardState} :
      Reachable s → Reachable (handleSearch t out s)
  | mapClick (l : ℚ × ℚ) (out : FetchOutcome) {s : WizardState} :
      Reachable s → Reachable (handleMapClick l out s)
  | markerDrag (l : ℚ × ℚ) (ty : MarkerType) (out : FetchOutcome)
      {s : WizardState} : Reachable s → Reachable (handleMarkerDrag l ty out s)
  | coordChange (lat lng : ℚ) (out : FetchOutcome) {s : WizardState} :
      Reachable s → Reachable (handleCoordinateChange lat lng out s)
  | next {s : WizardState} : Reachable s → Reachable (handleNext s).1
  | previous {s : WizardState} : Reachable s → Reachable (handlePrevious s)
  | rotate (r : ℚ) {s : WizardState} :
      Reachable s → Reachable (setBuildingRotation r s)
  | mode (m : String) {s : WizardState} :
      Reachable s → Reachable (setInteractionMode m s)

/-- The handler `handleSearch` never changes the step. -/
theorem handleSearch_currentStep (t : String) (out : FetchOutcome)
    (s : WizardState) : (handleSearch t out s).currentStep = s.currentStep := by
  unfold handleSearch
  split
  · split <;> rfl
  · rfl

/-- The handler `handleMapClick` never changes the step. -/
theorem handleMapClick_currentStep (l : ℚ × ℚ) (out : FetchOutcome)
    (s : WizardState) : (handleMapClick l out s).currentStep = s.currentStep := by
  unfold handleMapClick
  split
  · rfl
  · split
    · rfl
    · split <;> rfl

/-- The handler `handleMarkerDrag` never changes the step. -/
theorem handleMarkerDrag_currentStep (l : ℚ × ℚ) (ty : MarkerType)
    (out : FetchOutcome) (s : WizardState) :
    (handleMarkerDrag l ty out s).currentStep = s.currentStep := by
  unfold handleMarkerDrag
  split
  · split <;> rfl
  · rfl
  · rfl

/-- The handler `handleCoordinateChange` never changes the step. -/
theorem handleCoordinateChange_currentStep (lat lng : ℚ) (out : FetchOutcome)
    (s : WizardState) :
    (handleCoordinateChange lat lng out s).currentStep = s.currentStep := rfl

/-- What `handleNext` does to the step: advance below step 2, stay at
step 2. -/
theorem handleNext_currentStep (s : WizardState) :
    ((handleNext s).1).currentStep =
      if s.currentStep < 2 then s.currentStep + 1 else s.currentStep := by
  unfold handleNext stepsLength
  split
  · split
    · split <;> rfl
    · rfl
  · rfl

/-- What `handlePrevious` does to the step. -/
theorem handlePrevious_currentStep (s : WizardState) :
    (handlePrevious s).currentStep =
      if 0 < s.currentStep then s.currentStep - 1 else s.currentStep := by
  unfold handlePrevious
  split <;> rfl

/-- Every reachable state sits at step 0, 1 or 2. -/
theorem reachable_currentStep_le {s : WizardState} (h : Reachable s) :
    s.currentStep ≤ 2 := by
  induction h with
  | init => exact Nat.zero_le 2
  | search t out _ ih => rw [handleSearch_currentStep]; exact ih
  | mapClick l out _ ih => rw [handleMapClick_currentStep]; exact ih
  | markerDrag l ty out _ ih => rw [handleMarkerDrag_currentStep]; exact ih
  | coordChange lat lng out _ ih =>
    rw [handleCoordinateChange_currentStep]; exact ih
  | next _ ih => rw [handleNext_currentStep]; split <;> omega
  | previous _ ih => rw [handlePrevious_currentStep]; split <;> omega
  | rotate r _ ih => exact ih
  | mode m _ ih => exact ih

/-- After `n` presses of the right stepper button, rotation 0 becomes `15 n`. -/
theorem rotationStepUp_iterate (n : ℕ) :
    rotationStepUp^[n] 0 = 15 * (n : ℚ) := by
  induction n with
  | zero => simp
  | succ k ih =>
    rw [Function.iterate_succ_apply', ih]
    unfold rotationStepUp
    push_cast
    ring

/-- After `n` presses of the left stepper button, rotation 0 becomes `-15 n`. -/
theorem rotationStepDown_iterate (n : ℕ) :
    rotationStepDown^[n] 0 = -(15 * (n : ℚ)) := by
  induction n with
  | zero => simp
  | succ k ih =>
    rw [Function.iterate_succ_apply', ih]
    unfold rotationStepDown
    push_cast
    ring

/-- A concrete state sitting at step 1 (used to instantiate theorems). -/
def stateAtStep1 : WizardState := { initialState with currentStep := 1 }

/-- A concrete state sitting at step 2 (used to instantiate theorems). -/
def stateAtStep2 : WizardState := { initialState with currentStep := 2 }

/-- A concrete step-0 state with a project location already placed. -/
def stateWithLocation : WizardState :=
  { initialState with projectLocation := some (7, 8) }

/-- C1: in step 0, clicking the map sets the project location to the
clicked coordinates, and `canProceed` at step 0 returns `true` exactly
when the project location is non-null. -/
theorem step0_click_sets_location_and_gates_next
    (s : WizardState) (latlng : ℚ × ℚ) (out : FetchOutcome)
    (h : s.currentStep = 0) :
    (handleMapClick latlng out s).projectLocation = some latlng ∧
    (canProceed s = true ↔ s.projectLocation ≠ none) := by
  constructor
  · unfold handleMapClick
    rw [if_pos h]
  · unfold canProceed
    rw [if_pos h]
    simp [Option.isSome_iff_ne_none]

/-- C1 witness: the theorem at the initial state and a concrete click. -/
theorem step0_click_sets_location_and_gates_next_witness :
    (handleMapClick (10, 20) FetchOutcome.fetchError initialState).projectLocation
        = some (10, 20) ∧
    (canProceed initialState = true ↔ initialState.projectLocation ≠ none) :=
  step0_click_sets_location_and_gates_next initialState (10, 20)
    FetchOutcome.fetchError rfl

/-- C2: on a thrown network error or a non-OK HTTP response,
`reverseGeocode` returns the literal coordinate fallback string
`` `${lat.toFixed(6)}, ${lng.toFixed(6)}` ``; being a total function into
`String`, it propagates no error to its caller. -/
theorem reverse_geocode_failure_falls_back (lat lng : ℚ) (dn : Option String) :
    reverseGeocode lat lng FetchOutcome.fetchError = coordFallback lat lng ∧
    reverseGeocode lat lng (FetchOutcome.response false dn) =
      coordFallback lat lng :=
  ⟨rfl, rfl⟩

/-- C3 counterexample: an HTTP-OK response whose `display_name` field is
the empty string is not returned as the address — the coordinate fallback
string comes back instead. -/
theorem reverse_geocode_ok_not_display_name_cex :
    reverseGeocode 0 0 (FetchOutcome.response true (some "")) =
        "0.000000, 0.000000" ∧
    "0.000000, 0.000000" ≠ "" := by
  constructor
  · decide
  · decide

/-- C3 (amended): for an HTTP-OK response, `reverseGeocode` returns the
`display_name` field when it is present and non-empty; when the field is
absent or the empty string, it returns the coordinate fallback string. -/
theorem reverse_geocode_ok_display_name (lat lng : ℚ) (dn : String)
    (h : dn ≠ "") :
    reverseGeocode lat lng (FetchOutcome.response true (some dn)) = dn ∧
    reverseGeocode lat lng (FetchOutcome.response true (some "")) =
      coordFallback lat lng ∧
    reverseGeocode lat lng (FetchOutcome.response true none) =
      coordFallback lat lng := by
  refine ⟨?_, ?_, rfl⟩
  · show (if dn = "" then coordFallback lat lng else dn) = dn
    rw [if_neg h]
  · show (if "" = "" then coordFallback lat lng else "") = coordFallback lat lng
    rw [if_pos rfl]

/-- C3 witness: the amended theorem at a concrete non-empty address. -/
theorem reverse_geocode_ok_display_name_witness :
    reverseGeocode 3 4 (FetchOutcome.response true (some "10 Main St")) =
        "10 Main St" ∧
    reverseGeocode 3 4 (FetchOutcome.response true (some "")) =
      coordFallback 3 4 ∧
    reverseGeocode 3 4 (FetchOutcome.response true none) =
      coordFallback 3 4 :=
  reverse_geocode_ok_display_name 3 4 "10 Main St" (by decide)

/-- C4: every way a project extent comes into being — the initial state,
a map click at step 1, and advancing from step 0 with a project location
set — gives it radius 1000. -/
theorem extent_radius_defaults_1000
    (s1 s0 : WizardState) (l loc : ℚ × ℚ) (out : FetchOutcome)
    (h1 : s1.currentStep = 1) (h0 : s0.currentStep = 0)
    (hloc : s0.projectLocation = some loc) :
    initialState.projectExtent.radius = 1000 ∧
    (handleMapClick l out s1).projectExtent.radius = 1000 ∧
    ((handleNext s0).1).projectExtent.radius = 1000 := by
  refine ⟨rfl, ?_, ?_⟩
  · simp [handleMapClick, h1]
  · simp [handleNext, stepsLength, h0, hloc]

/-- C4 witness: the theorem at concrete step-1 and step-0 states. -/
theorem extent_radius_defaults_1000_witness :
    initialState.projectExtent.radius = 1000 ∧
    (handleMapClick (3, 4) FetchOutcome.fetchError stateAtStep1).projectExtent.radius
        = 1000 ∧
    ((handleNext stateWithLocation).1).projectExtent.radius = 1000 :=
  extent_radius_defaults_1000 stateAtStep1 stateWithLocation (3, 4) (7, 8)
    FetchOutcome.fetchError rfl rfl rfl

/-- C5: the stepper's right button asks for the current rotation plus 15
and the left button for it minus 15, the setter stores the value with no
clamping or wrapping, and repeated presses from the initial rotation 0
pass any bound in either direction. -/
theorem rotation_stepper_unbounded (s : WizardState) (M : ℚ) :
    (setBuildingRotation (rotationStepUp s.buildingRotation) s).buildingRotation
        = s.buildingRotation + 15 ∧
    (setBuildingRotation (rotationStepDown s.buildingRotation) s).buildingRotation
        = s.buildingRotation - 15 ∧
    initialState.buildingRotation = 0 ∧
    ∃ n : ℕ, rotationStepUp^[n] initialState.buildingRotation > M ∧
      rotationStepDown^[n] initialState.buildingRotation < -M := by
  refine ⟨rfl, rfl, rfl, ?_⟩
  obtain ⟨n, hn⟩ := exists_nat_gt M
  have h0 : (0 : ℚ) ≤ (n : ℚ) := Nat.cast_nonneg n
  refine ⟨n, ?_, ?_⟩
  · show rotationStepUp^[n] 0 > M
    rw [rotationStepUp_iterate]
    linarith
  · show rotationStepDown^[n] 0 < -M
    rw [rotationStepDown_iterate]
    linarith

/-- C6: the wizard is a three-step linear machine: the step starts at 0
and stays in {0, 1, 2} in every reachable state; `handleNext` adds exactly
1 and only below the last step; `handlePrevious` subtracts exactly 1 and
only above step 0, where the Previous button is disabled and the handler
is the identity. -/
theorem wizard_three_step_machine (s : WizardState) (h : Reachable s) :
    initialState.currentStep = 0 ∧
    (s.currentStep = 0 ∨ s.currentStep = 1 ∨ s.currentStep = 2) ∧
    (s.currentStep < stepsLength - 1 →
      ((handleNext s).1).currentStep = s.currentStep + 1) ∧
    (¬ s.currentStep < stepsLength - 1 →
      ((handleNext s).1).currentStep = s.currentStep) ∧
    (0 < s.currentStep → (handlePrevious s).currentStep = s.currentStep - 1) ∧
    (s.currentStep = 0 → previousDisabled s = true ∧ handlePrevious s = s) := by
  have hle := reachable_currentStep_le h
  have hsteps : stepsLength - 1 = 2 := rfl
  refine ⟨rfl, by omega, ?_, ?_, ?_, ?_⟩
  · intro hlt
    rw [handleNext_currentStep, if_pos (by omega)]
  · intro hge
    rw [handleNext_currentStep, if_neg (by omega)]
  · intro hpos
    rw [handlePrevious_currentStep, if_pos hpos]
  · intro hz
    constructor
    · simp [previousDisabled, hz]
    · unfold handlePrevious
      rw [if_neg (by omega)]

/-- C6 witness: the theorem at the (reachable) initial state. -/
theorem wizard_three_step_machine_witness :
    initialState.currentStep = 0 ∧
    (initialState.currentStep = 0 ∨ initialState.currentStep = 1 ∨
      initialState.currentStep = 2) ∧
    (initialState.currentStep < stepsLength - 1 →
      ((handleNext initialState).1).currentStep = initialState.currentStep + 1) ∧
    (¬ initialState.currentStep < stepsLength - 1 →
      ((handleNext initialState).1).currentStep = initialState.currentStep) ∧
    (0 < initialState.currentStep →
      (handlePrevious initialState).currentStep = initialState.currentStep - 1) ∧
    (initialState.currentStep = 0 →
      previousDisabled initialState = true ∧
        handlePrevious initialState = initialState) :=
  wizard_three_step_machine initialState Reachable.init

/-- C7: a tooltip edit moves the position only when the typed text parses
to a number inside the field's range (`[-90, 90]` for latitude,
`[-180, 180]` for longitude); non-numeric or out-of-range text leaves the
position unchanged, and an in-range edit of one component keeps the other
component as it was. -/
theorem coordinate_tooltip_range_gate (value : String) (pos : ℚ × ℚ) (v : ℚ)
    (hv : jsParseFloat value = some v) :
    ((-90 ≤ v ∧ v ≤ 90) → handleLatChange value pos = (v, pos.2)) ∧
    (¬(-90 ≤ v ∧ v ≤ 90) → handleLatChange value pos = pos) ∧
    ((-180 ≤ v ∧ v ≤ 180) → handleLngChange value pos = (pos.1, v)) ∧
    (¬(-180 ≤ v ∧ v ≤ 180) → handleLngChange value pos = pos) ∧
    (∀ bad : String, jsParseFloat bad = none →
      handleLatChange bad pos = pos ∧ handleLngChange bad pos = pos) := by
  refine ⟨?_, ?_, ?_, ?_, ?_⟩
  · intro hr
    unfold handleLatChange
    rw [hv]
    exact if_pos hr
  · intro hr
    unfold handleLatChange
    rw [hv]
    exact if_neg hr
  · intro hr
    unfold handleLngChange
    rw [hv]
    exact if_pos hr
  · intro hr
    unfold handleLngChange
    rw [hv]
    exact if_neg hr
  · intro bad hb
    constructor
    · unfold handleLatChange
      rw [hb]
    · unfold handleLngChange
      rw [hb]

/-- C7 witness: the theorem at the in-range text "45" (and the
non-numeric text "abc" for the last conjunct). -/
theorem coordinate_tooltip_range_gate_witness :
    ((-90 ≤ (45 : ℚ) ∧ (45 : ℚ) ≤ 90) →
      handleLatChange "45" (1, 2) = (45, 2)) ∧
    (¬(-90 ≤ (45 : ℚ) ∧ (45 : ℚ) ≤ 90) → handleLatChange "45" (1, 2) = (1, 2)) ∧
    ((-180 ≤ (45 : ℚ) ∧ (45 : ℚ) ≤ 180) →
      handleLngChange "45" (1, 2) = (1, 45)) ∧
    (¬(-180 ≤ (45 : ℚ) ∧ (45 : ℚ) ≤ 180) →
      handleLngChange "45" (1, 2) = (1, 2)) ∧
    (∀ bad : String, jsParseFloat bad = none →
      handleLatChange bad (1, 2) = (1, 2) ∧ handleLngChange bad (1, 2) = (1, 2)) :=
  coordinate_tooltip_range_gate "45" (1, 2) 45 (by decide)

/-- C8: at the last step `canProceed` is always `true`, and Finish leaves
the state alone and emits the result record built from the five state
fields — with `buildingLocation` possibly `null`. -/
theorem building_step_optional (s : WizardState) (h : s.currentStep = 2) :
    canProceed s = true ∧
    (handleNext s).1 = s ∧
    (handleNext s).2 = some
      { projectLocation := s.projectLocation
        projectExtent := s.projectExtent
        buildingLocation := s.buildingLocation
        buildingRotation := s.buildingRotation
        interactionMode := s.interactionMode } := by
  have hnot : ¬ s.currentStep < stepsLength - 1 := by
    rw [h]; decide
  refine ⟨?_, ?_, ?_⟩
  · unfold canProceed
    rw [if_neg (by omega), if_neg (by omega)]
  · unfold handleNext
    rw [if_neg hnot]
  · unfold handleNext
    rw [if_neg hnot]

/-- C8 witness: the theorem at a step-2 state whose building location is
`none`: the emitted record carries `buildingLocation = none`. -/
theorem building_step_optional_witness :
    canProceed stateAtStep2 = true ∧
    (handleNext stateAtStep2).1 = stateAtStep2 ∧
    (handleNext stateAtStep2).2 = some
      { projectLocation := none
        projectExtent := { center := none, radius := 1000 }
        buildingLocation := none
        buildingRotation := 0
        interactionMode := "drag" } :=
  building_step_optional stateAtStep2 rfl

/-- C9: a search term that does not match the coordinate pattern geocodes
to the hard-coded New York City location, and the search handler centres
the map there. -/
theorem non_coordinate_search_returns_nyc (term : String) (st : WizardState)
    (out : FetchOutcome) (h : coordPatternTest term = false) :
    geocodeLocation term = (40.7128, -74.0060) ∧
    (handleSearch term out st).mapCenter = (40.7128, -74.0060) := by
  have hg : geocodeLocation term = (40.7128, -74.0060) := by
    unfold geocodeLocation
    rw [h]
    rfl
  refine ⟨hg, ?_⟩
  unfold handleSearch
  split
  · split
    · exact hg
    · exact hg
  · exact hg

/-- C9 witness: the theorem at the non-coordinate term "hello". -/
theorem non_coordinate_search_returns_nyc_witness :
    geocodeLocation "hello" = (40.7128, -74.0060) ∧
    (handleSearch "hello" FetchOutcome.fetchError initialState).mapCenter =
      (40.7128, -74.0060) :=
  non_coordinate_search_returns_nyc "hello" initialState FetchOutcome.fetchError
    (by decide)

/-- C10: a coordinate-shaped search term is split at the comma and both
halves pass through `Number` with no range validation; at step 0 the
handler stores the pair unchanged as project location and map center, and
the term "999,999" yields a latitude beyond 90 and a longitude beyond
180. -/
theorem coordinate_search_stored_unvalidated (term : String)
    (st : WizardState) (out : FetchOutcome)
    (hm : coordPatternTest term = true) (h0 : st.currentStep = 0) :
    geocodeLocation term =
      (jsNumber (String.mk ((splitOnComma term.data).headD [])),
       jsNumber (String.mk (((splitOnComma term.data).drop 1).headD []))) ∧
    (handleSearch term out st).projectLocation = some (geocodeLocation term) ∧
    (handleSearch term out st).mapCenter = geocodeLocation term ∧
    geocodeLocation "999,999" = (999, 999) ∧
    ¬ ((999 : ℚ) ≤ 90) ∧ ¬ ((999 : ℚ) ≤ 180) := by
  refine ⟨?_, ?_, ?_, by decide, by decide, by decide⟩
  · unfold geocodeLocation
    rw [if_pos hm]
  · unfold handleSearch
    rw [if_pos h0]
    split <;> rfl
  · unfold handleSearch
    rw [if_pos h0]
    split <;> rfl

/-- C10 witness: the theorem at the out-of-range term "999,999". -/
theorem coordinate_search_stored_unvalidated_witness :
    geocodeLocation "999,999" =
      (jsNumber (String.mk ((splitOnComma "999,999".data).headD [])),
       jsNumber (String.mk (((splitOnComma "999,999".data).drop 1).headD []))) ∧
    (handleSearch "999,999" FetchOutcome.fetchError initialState).projectLocation
        = some (geocodeLocation "999,999") ∧
    (handleSearch "999,999" FetchOutcome.fetchError initialState).mapCenter =
      geocodeLocation "999,999" ∧
    geocodeLocation "999,999" = (999, 999) ∧
    ¬ ((999 : ℚ) ≤ 90) ∧ ¬ ((999 : ℚ) ≤ 180) :=
  coordinate_search_stored_unvalidated "999,999" initialState
    FetchOutcome.fetchError (by decide) rfl
